import Mathlib

/-!
Verification of the `sum_type` crate (src/lib.rs): a declarative facility that
turns an enum-like declaration into a tagged union together with generated
injection conversions (`__sum_type_from`), fallible projections
(`__sum_type_try_from`), a reflection interface (`__sum_type_trait`), an arity
validator (`__assert_multiple_variants`), the surface rules of `sum_type!`
itself, and the `defer!` dispatch helper.

The embedding is shallow.  Rust types are represented by an abstract universe:
a type `Ty` of dynamic type identities (the role played by `core::any::TypeId`)
and a type `Val` of payload values with a map `tyOf : Val → Ty` giving each
value its dynamic type.  A generated union over a declaration `d` is a value
tagged with the index of its active variant, carrying a payload whose dynamic
type equals the declared payload type of that variant — exactly the invariant
the generated Rust enum maintains by construction.
-/

namespace SumTypeModel

/-- A variant descriptor of a declaration: a variant name together with the
declared payload type (one payload per variant). -/
structure VariantDecl (Ty : Type) where
  name : String
  payload : Ty
deriving DecidableEq

/-- A union declaration: the union name and the ordered sequence of variant
descriptors, as written by the user (after surface normalization). -/
structure UnionDecl (Ty : Type) where
  name : String
  variants : List (VariantDecl Ty)
deriving DecidableEq

/-- A value of the generated union for declaration `d`: the index of the
active variant and the carried payload.  The field `wellTyped` is the
invariant the generated Rust enum gives for free: the payload stored in
variant `i` has the payload type declared for variant `i`. -/
structure UnionValue {Ty Val : Type} (tyOf : Val → Ty) (d : UnionDecl Ty) where
  idx : Fin d.variants.length
  payload : Val
  wellTyped : tyOf payload = (d.variants.get idx).payload

/-- The error value of a failed projection, from `pub struct InvalidType`
(src/lib.rs lines 186-196): expected variant name, actual variant name, the
list of all variant names, and the hidden unit marker field. -/
structure InvalidType where
  expected_variant : String
  actual_variant : String
  all_variants : List String
  non_exhaustive_marker : Unit
deriving DecidableEq

section Generated

variable {Ty Val : Type} [DecidableEq Ty] (tyOf : Val → Ty)

/-- `SumType::variant` (src/lib.rs lines 271-277): the generated
implementation matches on `*self` and returns `stringify!($name)` for the
active variant, i.e. the declared name at the active index. -/
def SumType.variant {d : UnionDecl Ty} (v : UnionValue tyOf d) : String :=
  (d.variants.get v.idx).name

/-- `SumType::variants` (src/lib.rs lines 265-269): the generated
implementation ignores `self` and returns the static slice
`&[stringify!($name), ...]` listing every declared variant name in
declaration order. -/
def SumType.variants {d : UnionDecl Ty} (_v : UnionValue tyOf d) : List String :=
  d.variants.map VariantDecl.name

/-- `SumType::downcast_ref` (src/lib.rs lines 279-287): the generated
implementation matches on the active variant and, in every arm, performs
`(value as &Any).downcast_ref::<T>()` on the carried payload — a dynamic
type-identity test that yields the payload exactly when its dynamic type is
`T`.  Since every arm performs the same dynamic test on the payload it
carries, the match collapses to one test on the carried payload. -/
def SumType.downcast_ref {d : UnionDecl Ty} (T : Ty) (v : UnionValue tyOf d) :
    Option Val :=
  if tyOf v.payload = T then some v.payload else none

/-- `SumType::downcast_mut` (src/lib.rs lines 289-297): identical match
structure to `downcast_ref`, with `(value as &mut Any).downcast_mut::<T>()`
in each arm; the referent it exposes is the same payload under the same
dynamic type-identity test. -/
def SumType.downcast_mut {d : UnionDecl Ty} (T : Ty) (v : UnionValue tyOf d) :
    Option Val :=
  if tyOf v.payload = T then some v.payload else none

/-- `SumType::variant_is` (src/lib.rs lines 299-301): literally
`self.downcast_ref::<T>().is_some()`. -/
def SumType.variant_is {d : UnionDecl Ty} (T : Ty) (v : UnionValue tyOf d) :
    Bool :=
  (SumType.downcast_ref tyOf T v).isSome

/-- `__sum_type_from` (src/lib.rs lines 248-258): for the variant descriptor
at index `j`, the generated `From<$variant_type>` impl is
`$enum_name::$name(other)` — it wraps the given payload in variant `j`.  The
hypothesis `h` is the static typing fact that the argument has the variant
payload type. -/
def sum_type_from {d : UnionDecl Ty} (j : Fin d.variants.length) (t : Val)
    (h : tyOf t = (d.variants.get j).payload) : UnionValue tyOf d :=
  ⟨j, t, h⟩

/-- `__sum_type_try_from` (src/lib.rs lines 219-244): the generated
`TryFrom<$enum_name>` impl for the variant descriptor at index `j` first
evaluates `variant(&other)` and `variants(&other)`, then tests
`if let $enum_name::$name(value) = other`.  The pattern names the
constructor of variant `j`, so in the model the test is `v.idx = j`.  On
success it returns the carried payload; on failure it builds an
`InvalidType` from `stringify!($name)`, the saved actual variant name and
the saved variant list. -/
def sum_type_try_from {d : UnionDecl Ty} (j : Fin d.variants.length)
    (v : UnionValue tyOf d) : Except InvalidType Val :=
  let variant := SumType.variant tyOf v
  let variants := SumType.variants tyOf v
  if v.idx = j then Except.ok v.payload
  else Except.error ⟨(d.variants.get j).name, variant, variants, ()⟩

/-- `__assert_multiple_variants` (src/lib.rs lines 308-317): the first rule
matches a variant list with exactly one descriptor and expands to
`compile_error!(concat!("The `", stringify!($enum_name), "` type must have more than one variant"))`;
the second rule matches any variant list (the empty one included) and
expands to nothing.  `some msg` models the emitted diagnostic, `none`
models silence. -/
def assert_multiple_variants (enum_name : String)
    (vs : List (VariantDecl Ty)) : Option String :=
  match vs with
  | [_] => some ("The `" ++ enum_name ++ "` type must have more than one variant")
  | _ => none

end Generated

section Defer

variable {Ty Val : Type} [DecidableEq Ty] (tyOf : Val → Ty)

/-- `defer!`, read form (src/lib.rs lines 466-492): the rule
`($kind:ident as $variable:expr; $( $variant:ident )|* => |ref $item:ident| $exec:expr)`
expands to a match with one arm `$kind::$variant(ref $item) => $exec` per
covered variant name, plus a catch-all arm
`_ => unreachable!("Unexpected variant, {}, for {}", variant(&$variable), stringify!($kind))`.
A match arm fires exactly when the active variant is one of the named
constructors; the catch-all panic is modelled as `Except.error` carrying the
message `unreachable!` prints. -/
def defer_read {β : Type} {d : UnionDecl Ty} (covered : List String)
    (f : Val → β) (v : UnionValue tyOf d) : Except String β :=
  if SumType.variant tyOf v ∈ covered then Except.ok (f v.payload)
  else Except.error ("internal error: entered unreachable code: Unexpected variant, "
      ++ SumType.variant tyOf v ++ ", for " ++ d.name)

/-- `defer!`, mutate form (src/lib.rs lines 474-480): same expansion with
`ref mut $item` patterns, so the covered arm mutates the payload in place
through an exclusive reference.  The mutation `g` acts through `&mut T`, so
it preserves the dynamic payload type (hypothesis `hg`); the result is the
union value after the in-place update. -/
def defer_mut {d : UnionDecl Ty} (covered : List String) (g : Val → Val)
    (hg : ∀ x, tyOf (g x) = tyOf x) (v : UnionValue tyOf d) :
    Except String (UnionValue tyOf d) :=
  if SumType.variant tyOf v ∈ covered then
    Except.ok ⟨v.idx, g v.payload, by rw [hg]; exact v.wellTyped⟩
  else Except.error ("internal error: entered unreachable code: Unexpected variant, "
      ++ SumType.variant tyOf v ++ ", for " ++ d.name)

end Defer

/-! ## The surface rules of the declaration rewriter

`sum_type!` (src/lib.rs lines 333-392) has four rules, tried in order:

1. `pub enum` whose entries are all of shape `$var_name:ident($var_ty:ty),`;
2. `enum` (default visibility) with the same entry shape;
3. `pub enum` whose entries are all of shape `$var_name:ident,` (lazy form) —
   it recurses into rule 1 with every entry rewritten to `$var_name($var_name),`;
4. `enum` (default visibility) whose entries again have the shape
   `$var_name:ident($var_ty:ty),` — the same matcher as rule 2 — transcribed
   with every entry rewritten to `$var_name($var_name),`.

A `pub` declaration can only be matched by rules 1 and 3, a default-visibility
declaration only by rules 2 and 4.  The model returns the canonical list of
(variant name, payload type reference) pairs the expansion feeds to
`__sum_type_impls!`, or `none` when no rule matches (a build failure:
"no rules expected the token"). -/

/-- One variant entry as written by the user: either `Name(Type),` or the
lazy `Name,`. -/
inductive VariantEntry
  | explicitEntry (name : String) (ty : String)
  | lazyEntry (name : String)
deriving DecidableEq

/-- A `sum_type!` invocation: visibility marker, union name, entry list. -/
structure SumTypeInput where
  isPub : Bool
  name : String
  entries : List VariantEntry
deriving DecidableEq

/-- The repetition matcher `$( $var_name:ident($var_ty:ty), )*`: succeeds
exactly when every entry is explicit (zero entries included), yielding the
captured (name, type) pairs. -/
def matchExplicit : List VariantEntry → Option (List (String × String))
  | [] => some []
  | VariantEntry.explicitEntry n t :: rest =>
      (matchExplicit rest).map (fun ps => (n, t) :: ps)
  | VariantEntry.lazyEntry _ :: _ => none

/-- The repetition matcher `$( $var_name:ident, )*`: succeeds exactly when
every entry is lazy (zero entries included), yielding the captured names. -/
def matchLazy : List VariantEntry → Option (List String)
  | [] => some []
  | VariantEntry.lazyEntry n :: rest =>
      (matchLazy rest).map (fun ns => n :: ns)
  | VariantEntry.explicitEntry _ _ :: _ => none

/-- `sum_type!` rule dispatch (src/lib.rs lines 333-392), rules tried in
source order within each visibility.  Rule 3 recurses into rule 1 with the
lazy names doubled into `(name, name)` pairs; rule 4 keeps the explicit
matcher of rule 2 and therefore can never fire after rule 2 has failed. -/
def sum_type_expand (inp : SumTypeInput) : Option (List (String × String)) :=
  if inp.isPub then
    match matchExplicit inp.entries with
    | some ps => some ps
    | none =>
        match matchLazy inp.entries with
        | some ns => some (ns.map (fun n => (n, n)))
        | none => none
  else
    match matchExplicit inp.entries with
    | some ps => some ps
    | none =>
        match matchExplicit inp.entries with
        | some ps => some (ps.map (fun p => (p.1, p.1)))
        | none => none

/-! ## A concrete universe for witnesses

The doc examples of the crate use
`MySumType { First(u32), Second(String), Third(Vec<u8>) }`; the concrete
universe below carries exactly those payload types. -/

/-- Dynamic type identities of the concrete universe. -/
inductive Ty0
  | u32
  | stringT
  | vecU8
deriving DecidableEq

/-- Payload values of the concrete universe. -/
inductive Val0
  | u32 (n : Nat)
  | stringT (s : String)
  | vecU8 (bs : List Nat)
deriving DecidableEq

/-- The dynamic type of a concrete payload value. -/
def Val0.ty : Val0 → Ty0
  | Val0.u32 _ => Ty0.u32
  | Val0.stringT _ => Ty0.stringT
  | Val0.vecU8 _ => Ty0.vecU8

/-- The declaration of the doc example `MySumType`. -/
def MySumType : UnionDecl Ty0 :=
  ⟨"MySumType",
    [⟨"First", Ty0.u32⟩, ⟨"Second", Ty0.stringT⟩, ⟨"Third", Ty0.vecU8⟩]⟩

/-- `MySumType::First(52)`. -/
def myFirst : UnionValue Val0.ty MySumType :=
  ⟨⟨0, by decide⟩, Val0.u32 52, rfl⟩

/-- `MySumType::Second("Not a Vec<u8>")`. -/
def mySecond : UnionValue Val0.ty MySumType :=
  ⟨⟨1, by decide⟩, Val0.stringT "Not a Vec<u8>", rfl⟩

/-- `MySumType::Third(vec![72, 105])`. -/
def myThird : UnionValue Val0.ty MySumType :=
  ⟨⟨2, by decide⟩, Val0.vecU8 [72, 105], rfl⟩

/-- A type-preserving in-place mutation: reset the payload to its default,
as in the `defer!` doc example. -/
def resetDefault : Val0 → Val0
  | Val0.u32 _ => Val0.u32 0
  | Val0.stringT _ => Val0.stringT ""
  | Val0.vecU8 _ => Val0.vecU8 []

/-- `resetDefault` preserves the dynamic payload type. -/
theorem resetDefault_ty : ∀ x, Val0.ty (resetDefault x) = Val0.ty x := by
  intro x
  cases x <;> rfl

/-! ## The claims -/

section Claims

variable {Ty Val : Type}

/-- C1: for every generated union and every variant, projecting a union value
whose active variant is the target of the generated TryFrom conversion
succeeds and returns the wrapped payload unchanged. -/
theorem C1_try_from_active_succeeds (tyOf : Val → Ty) {d : UnionDecl Ty}
    (v : UnionValue tyOf d) :
    sum_type_try_from tyOf v.idx v = Except.ok v.payload := by
  simp [sum_type_try_from]

/-- C1 witness: `u32::try_from(MySumType::First(52))` is `Ok(52)`. -/
theorem C1_witness :
    sum_type_try_from Val0.ty myFirst.idx myFirst = Except.ok (Val0.u32 52) :=
  C1_try_from_active_succeeds Val0.ty myFirst

/-- C2: projecting to a declared variant different from the active one fails,
and the error carries the target variant name as `expected_variant`, the
active variant name (the string `variant()` returns for the value) as
`actual_variant`, and the full ordered declared name list as
`all_variants`. -/
theorem C2_try_from_mismatch_error (tyOf : Val → Ty) {d : UnionDecl Ty}
    (j : Fin d.variants.length) (v : UnionValue tyOf d) (h : v.idx ≠ j) :
    sum_type_try_from tyOf j v =
      Except.error
        ⟨(d.variants.get j).name, SumType.variant tyOf v,
          d.variants.map VariantDecl.name, ()⟩ := by
  simp [sum_type_try_from, SumType.variants, h]

/-- C2 witness: projecting `MySumType::Second("Not a Vec<u8>")` to the
`Third` payload type fails with expected "Third", actual "Second", and the
full variant list. -/
theorem C2_witness :
    sum_type_try_from Val0.ty
        (⟨2, by decide⟩ : Fin MySumType.variants.length) mySecond =
      Except.error ⟨"Third", "Second", ["First", "Second", "Third"], ()⟩ :=
  C2_try_from_mismatch_error Val0.ty ⟨2, by decide⟩ mySecond (by decide)

/-- C3: the generated From conversion always produces the union value tagged
with the target variant wrapping the given payload, and `variant()` read on
the result is the target variant name. -/
theorem C3_from_injects (tyOf : Val → Ty) {d : UnionDecl Ty}
    (j : Fin d.variants.length) (t : Val)
    (h : tyOf t = (d.variants.get j).payload) :
    (sum_type_from tyOf j t h).idx = j ∧
    (sum_type_from tyOf j t h).payload = t ∧
    SumType.variant tyOf (sum_type_from tyOf j t h) = (d.variants.get j).name :=
  ⟨rfl, rfl, rfl⟩

/-- C3 witness: `MySumType::from(52u32)` is tagged `First`, wraps `52`, and
`variant()` on it is "First". -/
theorem C3_witness :
    (sum_type_from Val0.ty (⟨0, by decide⟩ : Fin MySumType.variants.length)
        (Val0.u32 52) rfl).idx = ⟨0, by decide⟩ ∧
    (sum_type_from Val0.ty (⟨0, by decide⟩ : Fin MySumType.variants.length)
        (Val0.u32 52) rfl).payload = Val0.u32 52 ∧
    SumType.variant Val0.ty
        (sum_type_from Val0.ty (⟨0, by decide⟩ : Fin MySumType.variants.length)
          (Val0.u32 52) rfl) = "First" :=
  C3_from_injects Val0.ty (⟨0, by decide⟩ : Fin MySumType.variants.length)
    (Val0.u32 52) rfl

/-- C4: for a union with at least two variants, `variants()` returns the
complete declared name list in declaration order, and its result does not
depend on which variant the receiving value holds. -/
theorem C4_variants_complete (tyOf : Val → Ty) {d : UnionDecl Ty}
    (_hd : 2 ≤ d.variants.length) (v w : UnionValue tyOf d) :
    SumType.variants tyOf v = d.variants.map VariantDecl.name ∧
    SumType.variants tyOf v = SumType.variants tyOf w :=
  ⟨rfl, rfl⟩

/-- C4 witness: `MySumType` has three variants, and `variants()` is
`["First", "Second", "Third"]` on a `First` value and on a `Second`
value alike. -/
theorem C4_witness :
    2 ≤ MySumType.variants.length ∧
    (SumType.variants Val0.ty myFirst = ["First", "Second", "Third"] ∧
      SumType.variants Val0.ty myFirst = SumType.variants Val0.ty mySecond) :=
  ⟨by decide, C4_variants_complete Val0.ty (by decide) myFirst mySecond⟩

/-- C5: `downcast_ref` yields the payload exactly when the active variant
declared payload type is the requested type identity (absent otherwise),
and `downcast_mut` exposes the payload under exactly the same rule. -/
theorem C5_downcast_type_identity [DecidableEq Ty] (tyOf : Val → Ty)
    {d : UnionDecl Ty}
    (T : Ty) (v : UnionValue tyOf d) :
    SumType.downcast_ref tyOf T v =
      (if (d.variants.get v.idx).payload = T then some v.payload else none) ∧
    SumType.downcast_mut tyOf T v = SumType.downcast_ref tyOf T v := by
  refine ⟨?_, rfl⟩
  unfold SumType.downcast_ref
  rw [v.wellTyped]

/-- C5 witness: on `MySumType::First(52)`, `downcast_ref` follows the
type-identity rule of the active variant and `downcast_mut` agrees. -/
theorem C5_witness :
    SumType.downcast_ref Val0.ty Ty0.u32 myFirst =
      (if (MySumType.variants.get myFirst.idx).payload = Ty0.u32 then
        some myFirst.payload else none) ∧
    SumType.downcast_mut Val0.ty Ty0.u32 myFirst =
      SumType.downcast_ref Val0.ty Ty0.u32 myFirst :=
  C5_downcast_type_identity Val0.ty Ty0.u32 myFirst

/-- C6: `variant_is` returns exactly `downcast_ref(...).isSome`, and hence
holds exactly when the active variant declared payload type is the requested
type identity. -/
theorem C6_variant_is_agrees [DecidableEq Ty] (tyOf : Val → Ty)
    {d : UnionDecl Ty}
    (T : Ty) (v : UnionValue tyOf d) :
    SumType.variant_is tyOf T v = (SumType.downcast_ref tyOf T v).isSome ∧
    (SumType.variant_is tyOf T v = true ↔
      (d.variants.get v.idx).payload = T) := by
  refine ⟨rfl, ?_⟩
  unfold SumType.variant_is SumType.downcast_ref
  rw [v.wellTyped]
  by_cases hT : (d.variants.get v.idx).payload = T
  · simp [hT]
  · simp [hT]

/-- C6 witness: on `MySumType::First(52)`, `variant_is` for the `u32`
identity agrees with `downcast_ref` and is true. -/
theorem C6_witness :
    SumType.variant_is Val0.ty Ty0.u32 myFirst =
      (SumType.downcast_ref Val0.ty Ty0.u32 myFirst).isSome ∧
    SumType.variant_is Val0.ty Ty0.u32 myFirst = true :=
  ⟨(C6_variant_is_agrees Val0.ty Ty0.u32 myFirst).1,
    (C6_variant_is_agrees Val0.ty Ty0.u32 myFirst).2.mpr rfl⟩

/-- C7: a declaration with exactly one variant makes the validator emit the
diagnostic that names the declaration and contains the literal phrase
"more than one variant"; with two or more variants it emits nothing. -/
theorem C7_single_variant_diagnostic (enum_name : String)
    (vs : List (VariantDecl Ty)) :
    (vs.length = 1 →
      assert_multiple_variants enum_name vs =
        some ("The `" ++ enum_name ++ "` type must have more than one variant")) ∧
    (2 ≤ vs.length → assert_multiple_variants enum_name vs = none) := by
  constructor
  · intro h
    cases vs with
    | nil => simp only [List.length_nil] at h; omega
    | cons a t =>
        cases t with
        | nil => rfl
        | cons b t2 => simp only [List.length_cons] at h; omega
  · intro h
    cases vs with
    | nil => simp only [List.length_nil] at h; omega
    | cons a t =>
        cases t with
        | nil => simp only [List.length_cons, List.length_nil] at h; omega
        | cons b t2 => rfl

/-- C7 witness: the single-variant declaration `OneVariant { First(String) }`
gets the documented diagnostic, and the three-variant `MySumType` gets
none. -/
theorem C7_witness :
    assert_multiple_variants "OneVariant"
        [(⟨"First", Ty0.stringT⟩ : VariantDecl Ty0)] =
      some "The `OneVariant` type must have more than one variant" ∧
    assert_multiple_variants "MySumType" MySumType.variants = none :=
  ⟨(C7_single_variant_diagnostic "OneVariant" _).1 rfl,
    (C7_single_variant_diagnostic "MySumType" _).2 (by decide)⟩

/-- C8: evaluation of the `sum_type!` rule dispatch on the lazy declaration
`{ f32, u32, String, }` under both visibility shapes: the `pub` shape
expands with each variant name equal to its payload type name, while the
default-visibility shape matches no rule at all and fails to build, because
the fourth rule keeps the explicit matcher of the second rule. -/
theorem C8_lazy_form_eval :
    sum_type_expand
        ⟨true, "Lazy",
          [VariantEntry.lazyEntry "f32", VariantEntry.lazyEntry "u32",
            VariantEntry.lazyEntry "String"]⟩ =
      some [("f32", "f32"), ("u32", "u32"), ("String", "String")] ∧
    sum_type_expand
        ⟨false, "Lazy",
          [VariantEntry.lazyEntry "f32", VariantEntry.lazyEntry "u32",
            VariantEntry.lazyEntry "String"]⟩ = none :=
  ⟨rfl, rfl⟩

/-- C9: when the active variant is covered, `defer!` applies the expression
to the unwrapped payload and yields its result (read form) or mutates the
payload in place keeping the tag (mutate form); when it is not covered, both
forms panic with a message carrying the unexpected variant name and the
union type name. -/
theorem C9_defer_dispatch (tyOf : Val → Ty) {β : Type} {d : UnionDecl Ty}
    (covered : List String) (f : Val → β) (g : Val → Val)
    (hg : ∀ x, tyOf (g x) = tyOf x) (v : UnionValue tyOf d) :
    (SumType.variant tyOf v ∈ covered →
      defer_read tyOf covered f v = Except.ok (f v.payload) ∧
      ∃ w, defer_mut tyOf covered g hg v = Except.ok w ∧
        w.idx = v.idx ∧ w.payload = g v.payload) ∧
    (SumType.variant tyOf v ∉ covered →
      defer_read tyOf covered f v =
        Except.error
          ("internal error: entered unreachable code: Unexpected variant, "
            ++ SumType.variant tyOf v ++ ", for " ++ d.name) ∧
      defer_mut tyOf covered g hg v =
        Except.error
          ("internal error: entered unreachable code: Unexpected variant, "
            ++ SumType.variant tyOf v ++ ", for " ++ d.name)) := by
  constructor
  · intro h
    refine ⟨by simp [defer_read, h], ?_⟩
    refine ⟨⟨v.idx, g v.payload, ?_⟩, ?_, rfl, rfl⟩
    · rw [hg]; exact v.wellTyped
    · simp [defer_mut, h]
  · intro h
    exact ⟨by simp [defer_read, h], by simp [defer_mut, h]⟩

/-- C9 witness: on `MySumType::Third(vec![72, 105])` with covered set
`First | Third`, the read form yields the payload and the mutate form
resets it in place; on the uncovered `MySumType::First(52)` with covered
set `Second | Third`, both forms panic with the expected message. -/
theorem C9_witness :
    (defer_read Val0.ty ["First", "Third"] (fun x => x) myThird =
        Except.ok (Val0.vecU8 [72, 105]) ∧
      ∃ w, defer_mut Val0.ty ["First", "Third"] resetDefault resetDefault_ty
          myThird = Except.ok w ∧
        w.idx = myThird.idx ∧ w.payload = Val0.vecU8 []) ∧
    (defer_read Val0.ty ["Second", "Third"] (fun x => x) myFirst =
        Except.error
          "internal error: entered unreachable code: Unexpected variant, First, for MySumType" ∧
      defer_mut Val0.ty ["Second", "Third"] resetDefault resetDefault_ty
          myFirst =
        Except.error
          "internal error: entered unreachable code: Unexpected variant, First, for MySumType") :=
  ⟨(C9_defer_dispatch Val0.ty ["First", "Third"] (fun x => x) resetDefault
      resetDefault_ty myThird).1 (by decide),
    (C9_defer_dispatch Val0.ty ["Second", "Third"] (fun x => x) resetDefault
      resetDefault_ty myFirst).2 (by decide)⟩

/-- C10: the validator accepts the empty variant list silently: the
single-variant rule does not match it and the general rule, which does,
expands to nothing. -/
theorem C10_zero_variants_accepted (enum_name : String) :
    assert_multiple_variants enum_name ([] : List (VariantDecl Ty)) = none :=
  rfl

/-- C10 witness: a zero-variant declaration named "Empty" gets no diagnostic
from the validator. -/
theorem C10_witness :
    assert_multiple_variants "Empty" ([] : List (VariantDecl Ty0)) = none :=
  C10_zero_variants_accepted "Empty"

end Claims

end SumTypeModel
